import Mathlib

/-!
Shallow embedding of the invader-game simulation core (src/src/game.ts,
src/src/utils.ts and the session driver in src/unnamed/part_000).

Numbers are modelled as rationals (`ℚ`): all arithmetic in the source is
JavaScript floating point, but every constant and operation relevant to the
claims is exact in small rationals, so `ℚ` is a faithful model on the inputs
considered.  Stateful TypeScript methods become pure functions returning the
updated record.
-/

namespace InvaderGame

/-! ### GAME_CONFIG constants (game.ts lines 9-39) -/

def CANVAS_WIDTH : ℚ := 800
def CANVAS_HEIGHT : ℚ := 600
def PLAYER_SPEED : ℚ := 300
def PLAYER_WIDTH : ℚ := 40
def PLAYER_HEIGHT : ℚ := 20
def PLAYER_LIVES : Int := 3
def BULLET_SPEED : ℚ := 400
def BULLET_WIDTH : ℚ := 4
def BULLET_HEIGHT : ℚ := 12
def MAX_PLAYER_BULLETS : Nat := 5
def PLAYER_SHOOT_COOLDOWN : ℚ := 200
def ENEMY_WIDTH : ℚ := 48
def ENEMY_HEIGHT : ℚ := 32
def ENEMY_ROWS : Nat := 5
def ENEMY_COLS : Nat := 9
def ENEMY_SPACING_X : ℚ := 64
def ENEMY_SPACING_Y : ℚ := 40
def ENEMY_START_X : ℚ := 88
def ENEMY_START_Y : ℚ := 80
def ENEMY_MOVE_SPEED : ℚ := 20
def ENEMY_DROP_DISTANCE : ℚ := 20
def ENEMY_SHOOT_INTERVAL : ℚ := 2000
def SCORE_PER_ENEMY : Int := 10
def UFO_SPEED : ℚ := 100
def UFO_WIDTH : ℚ := 50
def UFO_HEIGHT : ℚ := 20
def UFO_SCORE : Int := 100
def UFO_Y_POSITION : ℚ := 30

/-! ### utils.ts -/

/-- `Rect` (utils.ts lines 6-11). -/
structure Rect where
  x : ℚ
  y : ℚ
  width : ℚ
  height : ℚ
  deriving DecidableEq, Repr

/-- `checkCollision` (utils.ts lines 27-34): strict AABB overlap. -/
def checkCollision (rect1 rect2 : Rect) : Bool :=
  decide (rect1.x < rect2.x + rect2.width) &&
  decide (rect1.x + rect1.width > rect2.x) &&
  decide (rect1.y < rect2.y + rect2.height) &&
  decide (rect1.y + rect1.height > rect2.y)

/-- `clamp` (utils.ts lines 43-45): `Math.max(min, Math.min(max, value))`. -/
def clamp (value min' max' : ℚ) : ℚ :=
  max min' (min max' value)

/-! ### Bullet (game.ts lines 55-103) -/

structure Bullet where
  x : ℚ
  y : ℚ
  width : ℚ := BULLET_WIDTH
  height : ℚ := BULLET_HEIGHT
  speed : ℚ
  isPlayerBullet : Bool := true
  deriving DecidableEq, Repr

namespace Bullet

/-- `Bullet.update` (game.ts lines 73-75): `this.y += this.speed * deltaTime`. -/
def update (b : Bullet) (deltaTime : ℚ) : Bullet :=
  { b with y := b.y + b.speed * deltaTime }

/-- `Bullet.isOutOfBounds` (game.ts lines 88-90). -/
def isOutOfBounds (b : Bullet) : Bool :=
  decide (b.y < -b.height) || decide (b.y > CANVAS_HEIGHT)

/-- `Bullet.getRect` (game.ts lines 95-102). -/
def getRect (b : Bullet) : Rect :=
  { x := b.x, y := b.y, width := b.width, height := b.height }

end Bullet

/-! ### Player (game.ts lines 108-210) -/

structure Player where
  x : ℚ
  y : ℚ
  width : ℚ := PLAYER_WIDTH
  height : ℚ := PLAYER_HEIGHT
  speed : ℚ := PLAYER_SPEED
  lives : Int := PLAYER_LIVES
  lastShootTime : ℚ := 0
  deriving DecidableEq, Repr

namespace Player

/-- The constructor position (game.ts lines 117-120). -/
def init : Player :=
  { x := (CANVAS_WIDTH - PLAYER_WIDTH) / 2
    y := CANVAS_HEIGHT - PLAYER_HEIGHT - 20 }

/-- `Player.update` (game.ts lines 125-136): apply held directions then clamp. -/
def update (p : Player) (deltaTime : ℚ) (moveLeft moveRight : Bool) : Player :=
  let x1 := if moveLeft then p.x - p.speed * deltaTime else p.x
  let x2 := if moveRight then x1 + p.speed * deltaTime else x1
  { p with x := clamp x2 0 (CANVAS_WIDTH - p.width) }

/-- `Player.canShoot` (game.ts lines 141-143). -/
def canShoot (p : Player) (currentTime : ℚ) : Bool :=
  decide (currentTime - p.lastShootTime ≥ PLAYER_SHOOT_COOLDOWN)

/-- `Player.shoot` (game.ts lines 148-157): returns the optional bullet and
the updated player (`lastShootTime` stamped only on success). -/
def shoot (p : Player) (currentTime : ℚ) : Option Bullet × Player :=
  if ¬ p.canShoot currentTime then
    (none, p)
  else
    let bulletX := p.x + p.width / 2 - BULLET_WIDTH / 2
    let bulletY := p.y - BULLET_HEIGHT
    (some { x := bulletX, y := bulletY, speed := -BULLET_SPEED, isPlayerBullet := true },
     { p with lastShootTime := currentTime })

/-- `Player.hit` (game.ts lines 178-180): `this.lives--`. -/
def hit (p : Player) : Player :=
  { p with lives := p.lives - 1 }

/-- `Player.getRect` (game.ts lines 185-192). -/
def getRect (p : Player) : Rect :=
  { x := p.x, y := p.y, width := p.width, height := p.height }

/-- `Player.resetPosition` (game.ts lines 197-201). -/
def resetPosition (p : Player) : Player :=
  { p with
    x := (CANVAS_WIDTH - p.width) / 2
    y := CANVAS_HEIGHT - p.height - 20
    lastShootTime := 0 }

/-- `Player.reset` (game.ts lines 206-209). -/
def reset (p : Player) : Player :=
  { p.resetPosition with lives := PLAYER_LIVES }

end Player

/-! ### Enemy (game.ts lines 215-341) -/

structure Enemy where
  x : ℚ
  y : ℚ
  width : ℚ := ENEMY_WIDTH
  height : ℚ := ENEMY_HEIGHT
  isAlive : Bool := true
  row : Nat
  col : Nat
  deriving DecidableEq, Repr

namespace Enemy

/-- `Enemy.shoot` (game.ts lines 317-321). -/
def shoot (e : Enemy) : Bullet :=
  { x := e.x + e.width / 2 - BULLET_WIDTH / 2
    y := e.y + e.height
    speed := BULLET_SPEED
    isPlayerBullet := false }

/-- `Enemy.destroy` (game.ts lines 326-328). -/
def destroy (e : Enemy) : Enemy :=
  { e with isAlive := false }

/-- `Enemy.getRect` (game.ts lines 333-340). -/
def getRect (e : Enemy) : Rect :=
  { x := e.x, y := e.y, width := e.width, height := e.height }

end Enemy

/-! ### UFO (game.ts lines 346-451)

The constructor picks the entry side at random (`Math.random() < 0.5`); the
side is passed here as an explicit argument. -/

structure UFO where
  x : ℚ
  y : ℚ := UFO_Y_POSITION
  width : ℚ := UFO_WIDTH
  height : ℚ := UFO_HEIGHT
  speed : ℚ := UFO_SPEED
  isActive : Bool := true
  direction : Int
  deriving DecidableEq, Repr

namespace UFO

/-- The constructor (game.ts lines 355-366) for a given entry side. -/
def spawn (dir : Int) : UFO :=
  if dir = 1 then { x := -UFO_WIDTH, direction := 1 }
  else { x := CANVAS_WIDTH, direction := -1 }

/-- `UFO.update` (game.ts lines 371-382). -/
def update (u : UFO) (deltaTime : ℚ) : UFO :=
  if ¬ u.isActive then u
  else
    let x' := u.x + u.speed * (u.direction : ℚ) * deltaTime
    let u' := { u with x := x' }
    if u.direction = 1 ∧ x' > CANVAS_WIDTH then { u' with isActive := false }
    else if u.direction = -1 ∧ x' < -u.width then { u' with isActive := false }
    else u'

/-- `UFO.destroy` (game.ts lines 436-438). -/
def destroy (u : UFO) : UFO :=
  { u with isActive := false }

/-- `UFO.getRect` (game.ts lines 443-450). -/
def getRect (u : UFO) : Rect :=
  { x := u.x, y := u.y, width := u.width, height := u.height }

end UFO

/-! ### InvaderGrid (game.ts lines 456-713) -/

/-- `Math.max(...)` over a list that the source guards for non-emptiness
(the `[]` value is never reached through the guarded call sites). -/
def qMax : List ℚ → ℚ
  | [] => 0
  | x :: xs => xs.foldl max x

/-- `Math.min(...)` over a list guarded for non-emptiness. -/
def qMin : List ℚ → ℚ
  | [] => 0
  | x :: xs => xs.foldl min x

/-- The result record of `InvaderGrid.update` (game.ts line 537):
`{ bullets: Bullet[], stageChanged: boolean }`. -/
structure GridUpdateResult where
  bullets : List Bullet
  stageChanged : Bool
  deriving DecidableEq, Repr

structure InvaderGrid where
  enemies : List Enemy
  moveDirection : Int := 1
  lastMoveTime : ℚ := 0
  lastShootTime : ℚ := 0
  baseY : ℚ := ENEMY_START_Y
  previousSpeedStage : Int := 1
  deriving DecidableEq, Repr

namespace InvaderGrid

/-- `createEnemies` (game.ts lines 472-481): row-major formation. -/
def createEnemies (baseY : ℚ) : List Enemy :=
  (List.range ENEMY_ROWS).flatMap fun row =>
    (List.range ENEMY_COLS).map fun col =>
      { x := ENEMY_START_X + (col : ℕ) * ENEMY_SPACING_X
        y := baseY + (row : ℕ) * ENEMY_SPACING_Y
        row := row, col := col }

/-- The constructor (game.ts lines 464-467). -/
def init : InvaderGrid :=
  { enemies := createEnemies ENEMY_START_Y }

/-- The living enemies, `this.enemies.filter(enemy => enemy.isAlive)`. -/
def aliveEnemies (g : InvaderGrid) : List Enemy :=
  g.enemies.filter (·.isAlive)

/-- Descent distance of a grid: lowest living enemy's `y` minus `baseY`
(game.ts lines 491-495, guarded by a non-empty `aliveEnemies`). -/
def descentDistance (g : InvaderGrid) : ℚ :=
  qMax (g.aliveEnemies.map (·.y)) - g.baseY

/-- The speed-stage table (game.ts lines 498-503); `2.2 = 11/5`. -/
def speedStages : List (ℚ × ℚ) :=
  [(0, 1), (100, 3/2), (200, 11/5), (300, 3)]

/-- The stage-selection loop of `getCurrentMoveSpeed` (game.ts lines 506-513):
take each stage's multiplier while `descentDistance ≥ threshold`, stop at the
first stage whose threshold exceeds it. -/
def stageLoop (descent : ℚ) : ℚ → List (ℚ × ℚ) → ℚ
  | cur, [] => cur
  | cur, (threshold, multiplier) :: rest =>
      if descent ≥ threshold then stageLoop descent multiplier rest else cur

/-- The effective speed multiplier for a descent distance: the stage loop
started from `speedStages[0].multiplier = 1`. -/
def multiplierOfDescent (descent : ℚ) : ℚ :=
  stageLoop descent 1 speedStages

/-- `getCurrentMoveSpeed` (game.ts lines 486-516). -/
def getCurrentMoveSpeed (g : InvaderGrid) : ℚ :=
  if g.aliveEnemies.length = 0 then ENEMY_MOVE_SPEED
  else ENEMY_MOVE_SPEED * multiplierOfDescent g.descentDistance

/-- `getCurrentSpeedStage` (game.ts lines 521-532). -/
def getCurrentSpeedStage (g : InvaderGrid) : Int :=
  if g.aliveEnemies.length = 0 then 1
  else
    let descent := g.descentDistance
    if descent ≥ 300 then 4
    else if descent ≥ 200 then 3
    else if descent ≥ 100 then 2
    else 1

/-- `move` (game.ts lines 573-599): edge detection, direction flip with drop,
otherwise a lateral step of `moveDirection * 10`; only living enemies move. -/
def move (g : InvaderGrid) : InvaderGrid :=
  if g.aliveEnemies.length = 0 then g
  else
    let leftmostX := qMin (g.aliveEnemies.map (·.x))
    let rightmostX := qMax (g.aliveEnemies.map (fun e => e.x + e.width))
    let flipRight := g.moveDirection = 1 ∧ rightmostX ≥ CANVAS_WIDTH - 10
    let flipLeft := ¬ flipRight ∧ g.moveDirection = -1 ∧ leftmostX ≤ 10
    let shouldDrop := flipRight ∨ flipLeft
    let newDirection : Int :=
      if flipRight then -1 else if flipLeft then 1 else g.moveDirection
    let newEnemies := g.enemies.map fun e =>
      if e.isAlive then
        if shouldDrop then { e with y := e.y + ENEMY_DROP_DISTANCE }
        else { e with x := e.x + (g.moveDirection : ℚ) * 10 }
      else e
    { g with moveDirection := newDirection, enemies := newEnemies }

/-- `reduce` of `getFrontLineEnemies` (game.ts lines 627-629): the element
with the greatest `y`, earliest on ties. -/
def bottomMost : List Enemy → Option Enemy
  | [] => none
  | e :: es =>
      some (es.foldl (fun prev current => if prev.y > current.y then prev else current) e)

/-- `getFrontLineEnemies` (game.ts lines 619-635). -/
def getFrontLineEnemies (g : InvaderGrid) : List Enemy :=
  (List.range ENEMY_COLS).filterMap fun col =>
    bottomMost (g.aliveEnemies.filter (·.col = col))

/-- `randomShoot` (game.ts lines 604-614); the `randomInt` draw is injected as
`k`, reduced modulo the front-line size so that any `k` denotes a valid draw. -/
def randomShoot (g : InvaderGrid) (k : Nat) : Option Bullet :=
  if g.aliveEnemies.length = 0 then none
  else
    let frontLine := g.getFrontLineEnemies
    if frontLine.length = 0 then none
    else (frontLine[k % frontLine.length]?).map Enemy.shoot

/-- `update` (game.ts lines 537-568); `_deltaTime` is unused by the source,
`k` injects the shooter draw.  Returns the `{bullets, stageChanged}` record
and the updated grid. -/
def update (g : InvaderGrid) (_deltaTime : ℚ) (currentTime : ℚ) (k : Nat) :
    GridUpdateResult × InvaderGrid :=
  let currentStage := g.getCurrentSpeedStage
  let stageChanged := currentStage ≠ g.previousSpeedStage
  let g1 := if stageChanged then { g with previousSpeedStage := currentStage } else g
  let currentSpeed := g1.getCurrentMoveSpeed
  let g2 :=
    if currentTime - g1.lastMoveTime ≥ 1000 / currentSpeed then
      { g1.move with lastMoveTime := currentTime }
    else g1
  let shootInterval := ENEMY_SHOOT_INTERVAL / (currentSpeed / ENEMY_MOVE_SPEED)
  if currentTime - g2.lastShootTime ≥ shootInterval then
    ({ bullets := (g2.randomShoot k).toList, stageChanged := stageChanged },
     { g2 with lastShootTime := currentTime })
  else
    ({ bullets := [], stageChanged := stageChanged }, g2)

/-- The enemy-list scan of `checkBulletCollision` (game.ts lines 650-658):
destroy and return the first living enemy overlapping the bullet, return the
updated list alongside. -/
def checkBulletCollisionList (bullet : Bullet) : List Enemy → Option Enemy × List Enemy
  | [] => (none, [])
  | e :: es =>
      if e.isAlive && checkCollision bullet.getRect e.getRect then
        (some e.destroy, e.destroy :: es)
      else
        let r := checkBulletCollisionList bullet es
        (r.1, e :: r.2)

/-- `checkBulletCollision` (game.ts lines 650-658) on the grid. -/
def checkBulletCollision (g : InvaderGrid) (bullet : Bullet) :
    Option Enemy × InvaderGrid :=
  let r := checkBulletCollisionList bullet g.enemies
  (r.1, { g with enemies := r.2 })

/-- `getAliveCount` (game.ts lines 663-665). -/
def getAliveCount (g : InvaderGrid) : Nat :=
  g.aliveEnemies.length

/-- `checkPlayerCollision` (game.ts lines 679-689). -/
def checkPlayerCollision (g : InvaderGrid) (playerRect : Rect) : Option Enemy :=
  g.aliveEnemies.find? fun e => checkCollision e.getRect playerRect

/-- `reset` (game.ts lines 706-712). -/
def reset (g : InvaderGrid) : InvaderGrid :=
  { g with
    moveDirection := 1
    lastMoveTime := 0
    lastShootTime := 0
    previousSpeedStage := 1
    enemies := createEnemies g.baseY }

end InvaderGrid

/-- The right-edge flip condition of `move` (game.ts line 583): moving right
with the rightmost living edge within 10 units of the right playfield edge. -/
def InvaderGrid.moveFlipRight (g : InvaderGrid) : Prop :=
  g.moveDirection = 1 ∧
    qMax (g.aliveEnemies.map fun e => e.x + e.width) ≥ CANVAS_WIDTH - 10

/-- The left-edge flip condition of `move` (game.ts line 586): moving left
with the leftmost living edge within 10 units of the left playfield edge. -/
def InvaderGrid.moveFlipLeft (g : InvaderGrid) : Prop :=
  g.moveDirection = -1 ∧ qMin (g.aliveEnemies.map (·.x)) ≤ 10

/-! ### Session driver (src/unnamed/part_000)

The `SpaceInvadersGame` class.  Audio calls, drawing and input sampling are
side effects outside the simulation state and are dropped; the boolean fed to
`playEnemyShoot` (the enemy-fire sound condition) is returned explicitly where
a claim is about it. -/

/-- `GameState` (game.ts lines 44-48). -/
inductive GState where
  | title
  | playing
  | gameOver
  deriving DecidableEq, Repr

structure Session where
  gameState : GState := .title
  score : Int := 0
  wave : Int := 1
  player : Player := Player.init
  invaderGrid : InvaderGrid := InvaderGrid.init
  playerBullets : List Bullet := []
  enemyBullets : List Bullet := []
  ufo : Option UFO := none
  isPlayerRespawning : Bool := false
  playerRespawnTime : ℚ := 0
  deriving DecidableEq, Repr

namespace Session

/-- `startPlayerRespawn` (part_000 lines 304-307); `now` stands for the
`performance.now()` read there. -/
def startPlayerRespawn (s : Session) (now : ℚ) : Session :=
  { s with isPlayerRespawning := true, playerRespawnTime := now }

/-- `gameOver` (part_000 lines 472-475). -/
def gameOverTransition (s : Session) : Session :=
  { s with gameState := .gameOver }

/-- `nextWave` (part_000 lines 480-490). -/
def nextWave (s : Session) : Session :=
  { s with
    wave := s.wave + 1
    invaderGrid := s.invaderGrid.reset
    playerBullets := []
    enemyBullets := [] }

/-- `checkGameEndConditions` (part_000 lines 312-326). -/
def checkGameEndConditions (s : Session) : Session :=
  if s.player.lives ≤ 0 then s.gameOverTransition
  else if s.invaderGrid.getAliveCount = 0 then s.nextWave
  else s

/-- One iteration of the player-bullet loop of `checkCollisions`
(part_000 lines 226-260): test the bullet against the swarm; only if that
missed (`!bulletHit`), test it against an active bonus craft. -/
def resolveOnePlayerBullet (bullet : Bullet) (grid : InvaderGrid)
    (ufo : Option UFO) (score : Int) :
    Bool × InvaderGrid × Option UFO × Int :=
  let r := grid.checkBulletCollision bullet
  match r.1 with
  | some _ => (false, r.2, ufo, score + SCORE_PER_ENEMY)
  | none =>
      match ufo with
      | some u =>
          if u.isActive && checkCollision bullet.getRect u.getRect then
            (false, r.2, some u.destroy, score + UFO_SCORE)
          else (true, r.2, ufo, score)
      | none => (true, r.2, ufo, score)

/-- The player-bullet loop of `checkCollisions` (part_000 lines 225-261).
The source iterates indices from last to first, splicing hits out; processing
the tail first reproduces that order and the surviving bullets in order. -/
def resolvePlayerBullets :
    List Bullet → InvaderGrid → Option UFO → Int →
    List Bullet × InvaderGrid × Option UFO × Int
  | [], grid, ufo, score => ([], grid, ufo, score)
  | b :: rest, grid, ufo, score =>
      let r := resolvePlayerBullets rest grid ufo score
      let one := resolveOnePlayerBullet b r.2.1 r.2.2.1 r.2.2.2
      ((if one.1 then b :: r.1 else r.1), one.2.1, one.2.2.1, one.2.2.2)

/-- The enemy-bullet loop of `checkCollisions` (part_000 lines 264-282):
indices from last to first, `break` after the first bullet overlapping the
player (splice it, `player.hit()`).  The `Bool` reports whether a hit
occurred (it triggers `startPlayerRespawn`). -/
def resolveEnemyBullets : List Bullet → Player → List Bullet × Player × Bool
  | [], p => ([], p, false)
  | b :: rest, p =>
      let r := resolveEnemyBullets rest p
      if r.2.2 then (b :: r.1, r.2.1, true)
      else if checkCollision b.getRect p.getRect then (r.1, p.hit, true)
      else (b :: r.1, p, false)

/-- `checkCollisions` (part_000 lines 218-283). -/
def checkCollisions (s : Session) (now : ℚ) : Session :=
  if s.isPlayerRespawning then s
  else
    let r := resolvePlayerBullets s.playerBullets s.invaderGrid s.ufo s.score
    let s1 := { s with
      playerBullets := r.1, invaderGrid := r.2.1, ufo := r.2.2.1, score := r.2.2.2 }
    let e := resolveEnemyBullets s1.enemyBullets s1.player
    let s2 := { s1 with enemyBullets := e.1, player := e.2.1 }
    if e.2.2 then s2.startPlayerRespawn now else s2

/-- `checkInvaderPlayerCollision` (part_000 lines 288-299): any living enemy
touching the player ends the session immediately; skipped while respawning. -/
def checkInvaderPlayerCollision (s : Session) : Session :=
  if s.isPlayerRespawning then s
  else
    match s.invaderGrid.checkPlayerCollision s.player.getRect with
    | some _ => s.gameOverTransition
    | none => s

end Session

/-! ### JavaScript spread/length semantics for the enemy-bullet append

`updatePlaying` (part_000 lines 141-148) stores the record returned by
`InvaderGrid.update` and writes `this.enemyBullets.push(...newEnemyBullets)`
followed by `if (newEnemyBullets.length > 0)`.  At the JavaScript level, a
value is spreadable in an array context only if it is iterable; a plain
record is not, so the spread throws a `TypeError`, and reading `.length` on
the record yields `undefined`, with `undefined > 0` evaluating to `false`. -/

/-- The two shapes the session code confuses: an array of bullets, and the
`{bullets, stageChanged}` record actually returned by `InvaderGrid.update`. -/
inductive JSValue where
  | arrayOfBullets : List Bullet → JSValue
  | gridResult : GridUpdateResult → JSValue
  deriving DecidableEq, Repr

/-- Array spread: succeeds only on an iterable value. -/
def spreadIntoList : JSValue → Except String (List Bullet)
  | .arrayOfBullets l => .ok l
  | .gridResult _ => .error "TypeError: newEnemyBullets is not iterable"

/-- The `.length` property: `undefined` (`none`) on the record, which has no
such field. -/
def lengthProp : JSValue → Option Nat
  | .arrayOfBullets l => some l.length
  | .gridResult _ => none

/-- JavaScript `v.length > 0` where the left side may be `undefined`:
any comparison with `undefined` is `false`. -/
def jsGtZero : Option Nat → Bool
  | some n => decide (0 < n)
  | none => false

namespace Session

/-- The swarm-update steps of `updatePlaying` (part_000 lines 141-148):
store the update result, append it to `enemyBullets` by array spread, and
compute the enemy-fire sound condition `newEnemyBullets.length > 0`.
Returns the updated session and the sound condition, or the thrown error. -/
def enemyBulletAppend (s : Session) (deltaTime currentTime : ℚ) (k : Nat) :
    Except String (Session × Bool) :=
  let u := s.invaderGrid.update deltaTime currentTime k
  let newEnemyBullets := JSValue.gridResult u.1
  match spreadIntoList newEnemyBullets with
  | .error e => .error e
  | .ok bs =>
      .ok ({ s with invaderGrid := u.2, enemyBullets := s.enemyBullets ++ bs },
           jsGtZero (lengthProp newEnemyBullets))

end Session

/-! ### Concrete test fixtures -/

/-- A player in mid-field. -/
def testPlayer : Player := { x := 400, y := 560 }

/-- A downward (enemy-owned style) test projectile. -/
def testBullet : Bullet := { x := 0, y := 300, speed := -BULLET_SPEED }

/-- A single living enemy at the formation baseline. -/
def testEnemy : Enemy := { x := 400, y := ENEMY_START_Y, row := 0, col := 0 }

/-- A one-enemy grid at the baseline. -/
def testGrid : InvaderGrid := { enemies := [testEnemy] }

/-- A test bonus craft entering from the left. -/
def testUfo : UFO := { x := 0, direction := 1 }

/-- A player projectile overlapping `testEnemy`. -/
def hitEnemyBullet : Bullet := { x := 410, y := 90, speed := -BULLET_SPEED }

/-- An enemy projectile sitting exactly on the freshly spawned player. -/
def hitBullet : Bullet :=
  { x := Player.init.x, y := Player.init.y, speed := BULLET_SPEED, isPlayerBullet := false }

/-- A Playing session with one life left and `hitBullet` incoming. -/
def hitSession : Session :=
  { gameState := .playing
    player := { Player.init with lives := 1 }
    invaderGrid := testGrid
    enemyBullets := [hitBullet] }

/-- A Playing session with zero lives and a fully dead formation. -/
def deadSession : Session :=
  { gameState := .playing
    player := { Player.init with lives := 0 }
    invaderGrid := { enemies := [{ testEnemy with isAlive := false }] } }

/-- A Playing session with lives remaining and a fully dead formation. -/
def clearedSession : Session :=
  { gameState := .playing
    invaderGrid := { enemies := [{ testEnemy with isAlive := false }] } }

/-! ## Claims -/

/-- C1: in every Playing-phase frame update, the session stores the swarm
controller's update result — the `{bullets, stageChanged}` record, not an
array — and array-spreads that record into the enemy-bullet collection; the
record is not iterable, so the append never succeeds (it throws), no
swarm-fired projectile is ever added to `enemyBullets`, and the enemy-fire
sound condition (`.length` on the record compared with 0) is never true. -/
theorem C1_enemy_bullet_append_never_succeeds
    (s : Session) (dt t : ℚ) (k : Nat) :
    s.enemyBulletAppend dt t k =
      .error "TypeError: newEnemyBullets is not iterable" ∧
    jsGtZero (lengthProp (JSValue.gridResult (s.invaderGrid.update dt t k).1)) =
      false :=
  ⟨rfl, rfl⟩

/-- C7 counterexample: `Player.update` propagates a negative `dt` unchanged.
With only left held and `dt = -1` the player at `x = 400` moves right to
`x = 700`; a player-owned upward projectile (`speed = -400`) moves down by
400 under `Bullet.update (-1)`.  This refutes the claim that a negative dt is
rejected or clamped to zero. -/
theorem C7_counterexample :
    testPlayer.x = 400 ∧
    (testPlayer.update (-1) true false).x = 700 ∧
    testBullet.speed < 0 ∧
    testBullet.y = 300 ∧
    (testBullet.update (-1)).y = 700 := by
  refine ⟨rfl, ?_, by norm_num [testBullet, BULLET_SPEED], rfl, ?_⟩
  · show clamp _ 0 _ = 700
    norm_num [testPlayer, clamp, PLAYER_SPEED, CANVAS_WIDTH, PLAYER_WIDTH]
  · show (300 : ℚ) + -BULLET_SPEED * (-1) = 700
    norm_num [BULLET_SPEED]

/-- C7 amended: no update rejects or clamps a negative `dt`; negative motion
propagates.  For `dt < 0`, `Player.update` with left held yields
`clamp (x − speed·dt)`, which (for positive speed) lies to the right of `x`
— opposite to the held direction — and `Bullet.update` adds `speed·dt` to
`y`, moving the projectile against its velocity sign. -/
theorem C7_negative_dt_propagates (p : Player) (b : Bullet) (dt : ℚ)
    (hdt : dt < 0) (hp : 0 < p.speed) :
    (p.update dt true false).x = clamp (p.x - p.speed * dt) 0 (CANVAS_WIDTH - p.width) ∧
    p.x < p.x - p.speed * dt ∧
    (b.update dt).y = b.y + b.speed * dt ∧
    (0 < b.speed → (b.update dt).y < b.y) ∧
    (b.speed < 0 → b.y < (b.update dt).y) := by
  refine ⟨?_, ?_, rfl, ?_, ?_⟩
  · show clamp (if true then p.x - p.speed * dt else p.x) 0 _ = _
    norm_num
  · nlinarith
  · intro hb
    show b.y + b.speed * dt < b.y
    nlinarith
  · intro hb
    show b.y < b.y + b.speed * dt
    nlinarith

/-- C7 witness for `C7_negative_dt_propagates` at concrete inputs. -/
theorem C7_negative_dt_propagates_witness :
    testPlayer.x < testPlayer.x - testPlayer.speed * (-1) :=
  (C7_negative_dt_propagates testPlayer testBullet (-1) (by norm_num)
    (by norm_num [testPlayer, PLAYER_SPEED])).2.1

/-- C8: for every `dt ≥ 0` and every combination of held directions, the
player's x after `update` lies within `[0, CANVAS_WIDTH − width]`; with both
directions held the two movement contributions cancel, leaving only the
clamp. -/
theorem C8_player_clamp_invariant (p : Player) (dt : ℚ) (moveLeft moveRight : Bool)
    (hdt : 0 ≤ dt) (hw : p.width ≤ CANVAS_WIDTH) :
    0 ≤ (p.update dt moveLeft moveRight).x ∧
    (p.update dt moveLeft moveRight).x ≤ CANVAS_WIDTH - p.width ∧
    (p.update dt true true).x = clamp p.x 0 (CANVAS_WIDTH - p.width) := by
  refine ⟨?_, ?_, ?_⟩
  · show 0 ≤ max 0 _
    exact le_max_left _ _
  · show max 0 (min (CANVAS_WIDTH - p.width) _) ≤ CANVAS_WIDTH - p.width
    exact max_le (by linarith) (min_le_left _ _)
  · show clamp (if true then (if true then p.x - p.speed * dt else p.x) + p.speed * dt
        else if true then p.x - p.speed * dt else p.x) 0 _ = _
    norm_num

/-- C8 witness for `C8_player_clamp_invariant` at concrete inputs. -/
theorem C8_player_clamp_invariant_witness :
    0 ≤ (testPlayer.update 1 true false).x ∧
    (testPlayer.update 1 true false).x ≤ CANVAS_WIDTH - testPlayer.width :=
  ⟨(C8_player_clamp_invariant testPlayer 1 true false (by norm_num)
      (by norm_num [testPlayer, PLAYER_WIDTH, CANVAS_WIDTH])).1,
   (C8_player_clamp_invariant testPlayer 1 true false (by norm_num)
      (by norm_num [testPlayer, PLAYER_WIDTH, CANVAS_WIDTH])).2.1⟩

/-- C9 counterexample: two `shoot` calls whose timestamps differ by less than
the cooldown can yield ZERO non-null results, not exactly one — a fresh
player (`lastShootTime = 0`) called at 100 and 150 gets null both times,
since the first call itself falls inside the cooldown window. -/
theorem C9_counterexample :
    (Player.init.shoot 100).1 = none ∧
    (((Player.init.shoot 100).2).shoot 150).1 = none ∧
    (150 : ℚ) - 100 < PLAYER_SHOOT_COOLDOWN := by
  refine ⟨?_, ?_, by norm_num [PLAYER_SHOOT_COOLDOWN]⟩ <;>
    norm_num [Player.shoot, Player.canShoot, Player.init, PLAYER_SHOOT_COOLDOWN]

/-- C9 amended: `shoot(now)` returns null iff `now − lastShotTime <
cooldown`; on success it stamps `lastShotTime = now` and returns an
upward-moving player-owned projectile horizontally centered on the player and
spawned just above the player's top edge.  Two calls whose timestamps differ
by less than the cooldown yield AT MOST one non-null result — exactly one
when the first call itself satisfies the cooldown, and zero when both calls
fall within the cooldown of the previous shot. -/
theorem C9_shoot_cooldown (p : Player) (now t1 t2 : ℚ)
    (h12 : t2 - t1 < PLAYER_SHOOT_COOLDOWN) :
    ((p.shoot now).1 = none ↔ now - p.lastShootTime < PLAYER_SHOOT_COOLDOWN) ∧
    (PLAYER_SHOOT_COOLDOWN ≤ now - p.lastShootTime →
      (p.shoot now).2.lastShootTime = now ∧
      ∃ b, (p.shoot now).1 = some b ∧
        b.speed = -BULLET_SPEED ∧ b.speed < 0 ∧ b.isPlayerBullet = true ∧
        b.x + b.width / 2 = p.x + p.width / 2 ∧
        b.y + b.height = p.y) ∧
    ¬((p.shoot t1).1 ≠ none ∧ (((p.shoot t1).2).shoot t2).1 ≠ none) ∧
    (PLAYER_SHOOT_COOLDOWN ≤ t1 - p.lastShootTime →
      (p.shoot t1).1 ≠ none ∧ (((p.shoot t1).2).shoot t2).1 = none) := by
  have hiff : ∀ q : Player, ∀ t : ℚ,
      ((q.shoot t).1 = none ↔ t - q.lastShootTime < PLAYER_SHOOT_COOLDOWN) := by
    intro q t
    by_cases h : PLAYER_SHOOT_COOLDOWN ≤ t - q.lastShootTime
    · simp [Player.shoot, Player.canShoot, h, not_lt.mpr h]
    · simp [Player.shoot, Player.canShoot, h, lt_of_not_le h]
  have hsucc : ∀ q : Player, ∀ t : ℚ, PLAYER_SHOOT_COOLDOWN ≤ t - q.lastShootTime →
      (q.shoot t).2.lastShootTime = t := by
    intro q t h
    simp [Player.shoot, Player.canShoot, h]
  refine ⟨hiff p now, ?_, ?_, ?_⟩
  · intro h
    refine ⟨hsucc p now h, ?_⟩
    refine ⟨{ x := p.x + p.width / 2 - BULLET_WIDTH / 2, y := p.y - BULLET_HEIGHT,
              speed := -BULLET_SPEED, isPlayerBullet := true }, ?_, rfl,
            by norm_num [BULLET_SPEED], rfl, ?_, ?_⟩
    · simp [Player.shoot, Player.canShoot, h]
    · show p.x + p.width / 2 - BULLET_WIDTH / 2 + BULLET_WIDTH / 2 = p.x + p.width / 2
      ring
    · show p.y - BULLET_HEIGHT + BULLET_HEIGHT = p.y
      ring
  · rintro ⟨h1, h2⟩
    by_cases hc : PLAYER_SHOOT_COOLDOWN ≤ t1 - p.lastShootTime
    · exact h2 ((hiff _ t2).mpr (by rw [hsucc p t1 hc]; linarith))
    · exact h1 ((hiff p t1).mpr (lt_of_not_le hc))
  · intro hc
    refine ⟨fun h => absurd ((hiff p t1).mp h) (not_lt.mpr hc), ?_⟩
    exact (hiff _ t2).mpr (by rw [hsucc p t1 hc]; linarith)

/-- C9 witness for `C9_shoot_cooldown` at concrete inputs. -/
theorem C9_shoot_cooldown_witness :
    (Player.init.shoot 300).1 ≠ none ∧
    (((Player.init.shoot 300).2).shoot 350).1 = none :=
  (C9_shoot_cooldown Player.init 0 300 350
      (by norm_num [PLAYER_SHOOT_COOLDOWN])).2.2.2
    (by norm_num [Player.init, PLAYER_SHOOT_COOLDOWN])

/-- `UFO.update` on an inactive craft is the identity, so folding further
updates changes nothing. -/
theorem UFO.foldl_update_inactive (u : UFO) (h : u.isActive = false) :
    ∀ dts : List ℚ, dts.foldl UFO.update u = u := by
  intro dts
  induction dts with
  | nil => rfl
  | cons d rest ih =>
      have hu : u.update d = u := by simp [UFO.update, h]
      simpa [hu] using ih

/-- While a rightward craft stays active, its x is the start plus
`speed × (elapsed time)` and never strictly beyond the right playfield edge
(the update deactivates it the moment it passes). -/
theorem UFO.foldl_update_right_active (dts : List ℚ) :
    ∀ u : UFO, u.direction = 1 → u.isActive = true → u.x ≤ CANVAS_WIDTH →
    (dts.foldl UFO.update u).isActive = true →
    (dts.foldl UFO.update u).x = u.x + u.speed * dts.sum ∧
    (dts.foldl UFO.update u).x ≤ CANVAS_WIDTH := by
  induction dts with
  | nil =>
      intro u _ _ hx _
      simpa using hx
  | cons d rest ih =>
      intro u hdir hact hx hfin
      have hstep : u.update d =
          if CANVAS_WIDTH < u.x + u.speed * d then
            { u with x := u.x + u.speed * d, isActive := false }
          else { u with x := u.x + u.speed * d } := by
        simp only [UFO.update, hact, hdir]
        norm_num
      by_cases hover : CANVAS_WIDTH < u.x + u.speed * d
      · rw [List.foldl_cons, hstep, if_pos hover] at hfin
        rw [UFO.foldl_update_inactive _ rfl] at hfin
        exact absurd hfin (by simp)
      · have h1 : (u.update d).direction = 1 := by rw [hstep, if_neg hover]; exact hdir
        have h2 : (u.update d).isActive = true := by rw [hstep, if_neg hover]; exact hact
        have h3 : (u.update d).x ≤ CANVAS_WIDTH := by
          rw [hstep, if_neg hover]; exact le_of_not_lt hover
        rw [List.foldl_cons] at hfin ⊢
        obtain ⟨hx', hb⟩ := ih (u.update d) h1 h2 h3 hfin
        refine ⟨?_, hb⟩
        rw [hx', hstep, if_neg hover]
        show u.x + u.speed * d + u.speed * rest.sum = u.x + u.speed * (d :: rest).sum
        rw [List.sum_cons]
        ring

/-- C6 counterexample: a bonus craft heading right from `x = −width` is STILL
active after a single update whose delta is exactly
`(CANVAS_WIDTH + UFO_WIDTH) / UFO_SPEED` seconds: its x is then exactly
`CANVAS_WIDTH`, and deactivation requires `x > CANVAS_WIDTH` strictly. -/
theorem C6_counterexample :
    (UFO.spawn 1).x = -UFO_WIDTH ∧ (UFO.spawn 1).direction = 1 ∧
    ((UFO.spawn 1).update ((CANVAS_WIDTH + UFO_WIDTH) / UFO_SPEED)).isActive = true ∧
    ((UFO.spawn 1).update ((CANVAS_WIDTH + UFO_WIDTH) / UFO_SPEED)).x = CANVAS_WIDTH := by
  have hd : ((CANVAS_WIDTH + UFO_WIDTH) / UFO_SPEED : ℚ) = 17 / 2 := by
    norm_num [CANVAS_WIDTH, UFO_WIDTH, UFO_SPEED]
  refine ⟨rfl, rfl, ?_, ?_⟩ <;>
    norm_num [hd, UFO.spawn, UFO.update, CANVAS_WIDTH, UFO_WIDTH, UFO_SPEED]

/-- C6 amended: the craft deactivates only on STRICTLY exiting the far edge.
A rightward craft spawned at `x = −width` is still active when the update
deltas sum to exactly `(CANVAS_WIDTH + width) / speed` seconds, but inactive
for any sum strictly beyond it; in general, one update deactivates an active
rightward craft iff its new x strictly exceeds `CANVAS_WIDTH`, and an active
leftward craft iff its new x is strictly below `−width`. -/
theorem C6_ufo_exit (dts : List ℚ) (u : UFO) (dt : ℚ)
    (hsum : (CANVAS_WIDTH + UFO_WIDTH) / UFO_SPEED < dts.sum)
    (hu : u.isActive = true) :
    (dts.foldl UFO.update (UFO.spawn 1)).isActive = false ∧
    (u.direction = 1 →
      ((u.update dt).isActive = false ↔ CANVAS_WIDTH < u.x + u.speed * dt)) ∧
    (u.direction = -1 →
      ((u.update dt).isActive = false ↔ u.x + u.speed * (-1) * dt < -u.width)) := by
  refine ⟨?_, ?_, ?_⟩
  · by_contra hfin
    have hfin' : (dts.foldl UFO.update (UFO.spawn 1)).isActive = true := by
      simpa using hfin
    obtain ⟨hx, hb⟩ := UFO.foldl_update_right_active dts (UFO.spawn 1) rfl rfl
      (by norm_num [UFO.spawn, UFO_WIDTH, CANVAS_WIDTH]) hfin'
    rw [hx] at hb
    have : (UFO.spawn 1).x = -UFO_WIDTH := rfl
    have hs : (UFO.spawn 1).speed = UFO_SPEED := rfl
    rw [this, hs] at hb
    have : (CANVAS_WIDTH + UFO_WIDTH) / UFO_SPEED < dts.sum := hsum
    norm_num [UFO_WIDTH, UFO_SPEED, CANVAS_WIDTH] at hb this
    linarith
  · intro hdir
    simp only [UFO.update, hu, hdir]
    norm_num
    split_ifs with h1 <;> simp_all
  · intro hdir
    simp only [UFO.update, hu, hdir]
    norm_num
    split_ifs with h1 <;> simp_all

/-- C6 witness for `C6_ufo_exit` at concrete inputs. -/
theorem C6_ufo_exit_witness :
    (([9] : List ℚ).foldl UFO.update (UFO.spawn 1)).isActive = false :=
  (C6_ufo_exit [9] (UFO.spawn 1) 0
      (by norm_num [UFO_WIDTH, UFO_SPEED, CANVAS_WIDTH]) rfl).1

/-- Closed form of the stage-selection loop: the multiplier of the highest
threshold not exceeding the descent distance (1 below the first threshold). -/
theorem multiplierOfDescent_closed_form (d : ℚ) :
    InvaderGrid.multiplierOfDescent d =
      if d < 100 then 1 else if d < 200 then 3/2 else if d < 300 then 11/5 else 3 := by
  simp only [InvaderGrid.multiplierOfDescent, InvaderGrid.speedStages, InvaderGrid.stageLoop]
  split_ifs <;> first | rfl | linarith

/-- The speed multiplier is monotone in the descent distance. -/
theorem multiplierOfDescent_mono {d1 d2 : ℚ} (h : d1 ≤ d2) :
    InvaderGrid.multiplierOfDescent d1 ≤ InvaderGrid.multiplierOfDescent d2 := by
  rw [multiplierOfDescent_closed_form, multiplierOfDescent_closed_form]
  split_ifs <;> try norm_num
  all_goals linarith

/-- Changing only the remembered speed stage does not change the living set. -/
theorem InvaderGrid.aliveEnemies_set_stage (g : InvaderGrid) (s : Int) :
    ({ g with previousSpeedStage := s } : InvaderGrid).aliveEnemies = g.aliveEnemies :=
  rfl

/-- Changing only the remembered speed stage does not change the positions
produced by `move`. -/
theorem InvaderGrid.move_enemies_set_stage (g : InvaderGrid) (s : Int) :
    ({ g with previousSpeedStage := s } : InvaderGrid).move.enemies = g.move.enemies := by
  simp only [InvaderGrid.move]
  rw [InvaderGrid.aliveEnemies_set_stage]
  have he : ({ g with previousSpeedStage := s } : InvaderGrid).enemies = g.enemies := rfl
  have hd : ({ g with previousSpeedStage := s } : InvaderGrid).moveDirection =
      g.moveDirection := rfl
  rw [he, hd]
  by_cases hc : g.aliveEnemies.length = 0 <;> simp [hc]

/-- `move` never touches the fire timestamp. -/
theorem InvaderGrid.move_lastShootTime (g : InvaderGrid) :
    g.move.lastShootTime = g.lastShootTime := by
  simp only [InvaderGrid.move]
  by_cases hc : g.aliveEnemies.length = 0 <;> simp [hc]

/-- The second component of `InvaderGrid.update`, characterized over the
input grid: enemies move exactly when the move interval
`1000 / getCurrentMoveSpeed` has elapsed, and the fire stamp advances exactly
when `ENEMY_SHOOT_INTERVAL / (speed / base)` has elapsed. -/
theorem InvaderGrid.update_snd_spec (g : InvaderGrid) (dt now : ℚ) (k : Nat) :
    (g.update dt now k).2.enemies =
      (if now - g.lastMoveTime ≥ 1000 / g.getCurrentMoveSpeed
       then g.move.enemies else g.enemies) ∧
    (g.update dt now k).2.lastShootTime =
      (if now - g.lastShootTime ≥ ENEMY_SHOOT_INTERVAL / (g.getCurrentMoveSpeed / ENEMY_MOVE_SPEED)
       then now else g.lastShootTime) := by
  simp only [InvaderGrid.update]
  by_cases hsc : g.getCurrentSpeedStage ≠ g.previousSpeedStage
  · rw [if_pos hsc]
    have hsp : ({ g with previousSpeedStage := g.getCurrentSpeedStage } : InvaderGrid).getCurrentMoveSpeed
        = g.getCurrentMoveSpeed := rfl
    have hlm : ({ g with previousSpeedStage := g.getCurrentSpeedStage } : InvaderGrid).lastMoveTime
        = g.lastMoveTime := rfl
    have hls : ({ g with previousSpeedStage := g.getCurrentSpeedStage } : InvaderGrid).lastShootTime
        = g.lastShootTime := rfl
    have he : ({ g with previousSpeedStage := g.getCurrentSpeedStage } : InvaderGrid).enemies
        = g.enemies := rfl
    rw [hsp, hlm, hls]
    by_cases hmv : 1000 / g.getCurrentMoveSpeed ≤ now - g.lastMoveTime <;>
      by_cases hsh : ENEMY_SHOOT_INTERVAL / (g.getCurrentMoveSpeed / ENEMY_MOVE_SPEED) ≤
          now - g.lastShootTime <;>
      simp [hmv, hsh, InvaderGrid.move_enemies_set_stage, InvaderGrid.move_lastShootTime, he,
        ge_iff_le]
  · rw [if_neg hsc]
    by_cases hmv : 1000 / g.getCurrentMoveSpeed ≤ now - g.lastMoveTime <;>
      by_cases hsh : ENEMY_SHOOT_INTERVAL / (g.getCurrentMoveSpeed / ENEMY_MOVE_SPEED) ≤
          now - g.lastShootTime <;>
      simp [hmv, hsh, InvaderGrid.move_lastShootTime, ge_iff_le]

/-- C2: for a swarm with at least one living enemy, the speed multiplier is a
monotone non-decreasing function of descent distance taking exactly the
values 1, 3/2 (= 1.5), 11/5 (= 2.2), 3, equal to the multiplier of the
highest threshold among 0/100/200/300 not exceeding the descent; the grid
moves in `update` exactly when `1000 / (baseSpeed × multiplier)` ms have
elapsed, and the fire stamp advances exactly when
`baseFireInterval / multiplier` ms have elapsed. -/
theorem C2_speed_staging (g : InvaderGrid) (d1 d2 dt now : ℚ) (k : Nat)
    (h1 : 0 ≤ d1) (hmono : d1 ≤ d2) (halive : 0 < g.getAliveCount) :
    InvaderGrid.multiplierOfDescent d1 ≤ InvaderGrid.multiplierOfDescent d2 ∧
    InvaderGrid.multiplierOfDescent d1 ∈ ([1, 3/2, 11/5, 3] : List ℚ) ∧
    InvaderGrid.multiplierOfDescent d1 =
      (if d1 < 100 then 1 else if d1 < 200 then 3/2 else if d1 < 300 then 11/5 else 3) ∧
    g.getCurrentMoveSpeed =
      ENEMY_MOVE_SPEED * InvaderGrid.multiplierOfDescent g.descentDistance ∧
    (g.update dt now k).2.enemies =
      (if now - g.lastMoveTime ≥
         1000 / (ENEMY_MOVE_SPEED * InvaderGrid.multiplierOfDescent g.descentDistance)
       then g.move.enemies else g.enemies) ∧
    (g.update dt now k).2.lastShootTime =
      (if now - g.lastShootTime ≥
         ENEMY_SHOOT_INTERVAL / InvaderGrid.multiplierOfDescent g.descentDistance
       then now else g.lastShootTime) := by
  have hne : g.aliveEnemies.length ≠ 0 := Nat.pos_iff_ne_zero.mp halive
  have hspeed : g.getCurrentMoveSpeed =
      ENEMY_MOVE_SPEED * InvaderGrid.multiplierOfDescent g.descentDistance := by
    simp only [InvaderGrid.getCurrentMoveSpeed]
    rw [if_neg hne]
  have hshoot : ENEMY_SHOOT_INTERVAL / (g.getCurrentMoveSpeed / ENEMY_MOVE_SPEED) =
      ENEMY_SHOOT_INTERVAL / InvaderGrid.multiplierOfDescent g.descentDistance := by
    rw [hspeed]
    congr 1
    exact mul_div_cancel_left₀ _ (by norm_num [ENEMY_MOVE_SPEED])
  obtain ⟨hup1, hup2⟩ := InvaderGrid.update_snd_spec g dt now k
  refine ⟨multiplierOfDescent_mono hmono, ?_, ?_, hspeed, ?_, ?_⟩
  · rw [multiplierOfDescent_closed_form]
    split_ifs <;> simp
  · rw [multiplierOfDescent_closed_form]
  · rw [hup1, hspeed]
  · rw [hup2, hshoot]

/-- C2 witness for `C2_speed_staging` at concrete inputs. -/
theorem C2_speed_staging_witness :
    InvaderGrid.multiplierOfDescent 50 ≤ InvaderGrid.multiplierOfDescent 250 ∧
    testGrid.getCurrentMoveSpeed =
      ENEMY_MOVE_SPEED * InvaderGrid.multiplierOfDescent testGrid.descentDistance := by
  have h := C2_speed_staging testGrid 50 250 0 0 0 (by norm_num) (by norm_num)
    (by norm_num [InvaderGrid.getAliveCount, InvaderGrid.aliveEnemies, testGrid, testEnemy])
  exact ⟨h.1, h.2.2.2.1⟩

/-- C3: a single swarm `move` step either drops (direction flips, every
living enemy's y grows by the drop distance, x unchanged) or steps laterally
(every living enemy's x moves by direction × 10, y unchanged) — never both;
the direction flips exactly when an edge condition holds, every flip is
paired with the drop of that same step, and a formation with no living
enemies performs no motion. -/
theorem C3_move_step (g : InvaderGrid)
    (hdir : g.moveDirection = 1 ∨ g.moveDirection = -1) :
    (g.getAliveCount = 0 → g.move = g) ∧
    (0 < g.getAliveCount → (g.moveFlipRight ∨ g.moveFlipLeft) →
      g.move.moveDirection = -g.moveDirection ∧
      g.move.enemies = g.enemies.map (fun e =>
        if e.isAlive then { e with y := e.y + ENEMY_DROP_DISTANCE } else e)) ∧
    (0 < g.getAliveCount → ¬(g.moveFlipRight ∨ g.moveFlipLeft) →
      g.move.moveDirection = g.moveDirection ∧
      g.move.enemies = g.enemies.map (fun e =>
        if e.isAlive then { e with x := e.x + (g.moveDirection : ℚ) * 10 } else e)) ∧
    (0 < g.getAliveCount →
      (g.move.moveDirection ≠ g.moveDirection ↔ (g.moveFlipRight ∨ g.moveFlipLeft))) := by
  by_cases h0 : g.aliveEnemies.length = 0
  · have hmv : g.move = g := by
      simp only [InvaderGrid.move]
      rw [if_pos h0]
    have hz : ¬ 0 < g.getAliveCount := by
      have hc : g.getAliveCount = 0 := h0
      omega
    exact ⟨fun _ => hmv, fun h => absurd h hz, fun h => absurd h hz, fun h => absurd h hz⟩
  · rcases hdir with h1 | h1
    · by_cases hR : CANVAS_WIDTH - 10 ≤ qMax (g.aliveEnemies.map fun e => e.x + e.width)
      · have hmove : g.move = { g with
            moveDirection := -1,
            enemies := g.enemies.map (fun e =>
              if e.isAlive then { e with y := e.y + ENEMY_DROP_DISTANCE } else e) } := by
          simp only [InvaderGrid.move]
          rw [if_neg h0]
          simp [h1, hR, ge_iff_le]
        refine ⟨fun h => absurd h h0, fun _ _ => ⟨?_, ?_⟩,
          fun _ hn => absurd (Or.inl ⟨h1, hR⟩) hn, fun _ => ?_⟩
        · rw [hmove, h1]
        · rw [hmove]
        · rw [hmove]
          constructor
          · intro _
            exact Or.inl ⟨h1, hR⟩
          · intro _
            show (-1 : Int) ≠ g.moveDirection
            rw [h1]
            decide
      · have hmove : g.move = { g with
            enemies := g.enemies.map (fun e =>
              if e.isAlive then { e with x := e.x + (g.moveDirection : ℚ) * 10 } else e) } := by
          simp only [InvaderGrid.move]
          rw [if_neg h0]
          simp [h1, hR, ge_iff_le]
        have hnf : ¬(g.moveFlipRight ∨ g.moveFlipLeft) := by
          rintro (⟨_, hq⟩ | ⟨hd, _⟩)
          · exact hR hq
          · rw [h1] at hd
            exact absurd hd (by decide)
        refine ⟨fun h => absurd h h0, fun _ hf => absurd hf hnf, fun _ _ => ⟨?_, ?_⟩,
          fun _ => ?_⟩
        · rw [hmove]
        · rw [hmove]
        · rw [hmove]
          simp only [iff_false, hnf, iff_of_false]
          intro hne
          exact hne rfl
    · by_cases hL : qMin (g.aliveEnemies.map (·.x)) ≤ 10
      · have hmove : g.move = { g with
            moveDirection := 1,
            enemies := g.enemies.map (fun e =>
              if e.isAlive then { e with y := e.y + ENEMY_DROP_DISTANCE } else e) } := by
          simp only [InvaderGrid.move]
          rw [if_neg h0]
          simp [h1, hL, ge_iff_le]
        refine ⟨fun h => absurd h h0, fun _ _ => ⟨?_, ?_⟩,
          fun _ hn => absurd (Or.inr ⟨h1, hL⟩) hn, fun _ => ?_⟩
        · rw [hmove, h1]
          show (1 : Int) = - -1
          rfl
        · rw [hmove]
        · rw [hmove]
          constructor
          · intro _
            exact Or.inr ⟨h1, hL⟩
          · intro _
            show (1 : Int) ≠ g.moveDirection
            rw [h1]
            decide
      · have hmove : g.move = { g with
            enemies := g.enemies.map (fun e =>
              if e.isAlive then { e with x := e.x + (g.moveDirection : ℚ) * 10 } else e) } := by
          simp only [InvaderGrid.move]
          rw [if_neg h0]
          simp [h1, hL, ge_iff_le]
        have hnf : ¬(g.moveFlipRight ∨ g.moveFlipLeft) := by
          rintro (⟨hd, _⟩ | ⟨_, hq⟩)
          · rw [h1] at hd
            exact absurd hd (by decide)
          · exact hL hq
        refine ⟨fun h => absurd h h0, fun _ hf => absurd hf hnf, fun _ _ => ⟨?_, ?_⟩,
          fun _ => ?_⟩
        · rw [hmove]
        · rw [hmove]
        · rw [hmove]
          simp only [iff_false, hnf, iff_of_false]
          intro hne
          exact hne rfl

/-- C3 witness for `C3_move_step` at concrete inputs: the single test enemy
is far from both edges, so the step is lateral and keeps the direction. -/
theorem C3_move_step_witness :
    testGrid.move.moveDirection = testGrid.moveDirection := by
  have hnf : ¬(testGrid.moveFlipRight ∨ testGrid.moveFlipLeft) := by
    rintro (⟨-, h⟩ | ⟨h, -⟩)
    · rw [ge_iff_le] at h
      norm_num [testGrid, testEnemy, InvaderGrid.aliveEnemies, qMax,
        CANVAS_WIDTH, ENEMY_WIDTH, ENEMY_START_Y] at h
    · exact absurd h (by decide)
  exact ((C3_move_step testGrid (Or.inl rfl)).2.2.1 (by norm_num
    [testGrid, testEnemy, InvaderGrid.getAliveCount, InvaderGrid.aliveEnemies]) hnf).1

/-- The scan returns `none` exactly when no living enemy overlaps. -/
theorem InvaderGrid.checkBulletCollisionList_none_iff (b : Bullet) (es : List Enemy) :
    (InvaderGrid.checkBulletCollisionList b es).1 = none ↔
      ∀ e ∈ es, ¬(e.isAlive = true ∧ checkCollision b.getRect e.getRect = true) := by
  induction es with
  | nil => simp [InvaderGrid.checkBulletCollisionList]
  | cons e es ih =>
      simp only [InvaderGrid.checkBulletCollisionList]
      by_cases h : (e.isAlive && checkCollision b.getRect e.getRect) = true
      · rw [if_pos h]
        rw [Bool.and_eq_true] at h
        simp [h]
      · rw [if_neg h]
        rw [Bool.and_eq_true] at h
        show (InvaderGrid.checkBulletCollisionList b es).1 = none ↔ _
        simp only [List.mem_cons]
        constructor
        · intro hn x hx
          rcases hx with rfl | hx
          · exact fun hc => h ⟨hc.1, hc.2⟩
          · exact (ih.mp hn) x hx
        · intro hall
          exact ih.mpr fun x hx => hall x (Or.inr hx)

/-- A missing scan leaves the enemy list unchanged. -/
theorem InvaderGrid.checkBulletCollisionList_none_eq (b : Bullet) (es : List Enemy)
    (h : (InvaderGrid.checkBulletCollisionList b es).1 = none) :
    (InvaderGrid.checkBulletCollisionList b es).2 = es := by
  induction es with
  | nil => rfl
  | cons e es ih =>
      by_cases hh : (e.isAlive && checkCollision b.getRect e.getRect) = true
      · exfalso
        simp only [InvaderGrid.checkBulletCollisionList, if_pos hh] at h
        exact Option.some_ne_none _ h
      · simp only [InvaderGrid.checkBulletCollisionList, if_neg hh] at h ⊢
        show e :: (InvaderGrid.checkBulletCollisionList b es).2 = e :: es
        rw [ih h]

/-- A hitting scan splits the list as an unhit prefix, the first living
overlapping enemy (returned, killed in place), and an untouched suffix. -/
theorem InvaderGrid.checkBulletCollisionList_some (b : Bullet) (es : List Enemy) :
    ∀ e', (InvaderGrid.checkBulletCollisionList b es).1 = some e' →
      ∃ l1 e0 l2, es = l1 ++ e0 :: l2 ∧
        (∀ x ∈ l1, ¬(x.isAlive = true ∧ checkCollision b.getRect x.getRect = true)) ∧
        e0.isAlive = true ∧ checkCollision b.getRect e0.getRect = true ∧
        e' = e0.destroy ∧
        (InvaderGrid.checkBulletCollisionList b es).2 = l1 ++ e0.destroy :: l2 := by
  induction es with
  | nil =>
      intro e' h
      simp [InvaderGrid.checkBulletCollisionList] at h
  | cons e es ih =>
      intro e' h
      by_cases hh : (e.isAlive && checkCollision b.getRect e.getRect) = true
      · rw [Bool.and_eq_true] at hh
        simp only [InvaderGrid.checkBulletCollisionList, if_pos (Bool.and_eq_true _ _ |>.mpr hh)] at h ⊢
        refine ⟨[], e, es, rfl, by simp, hh.1, hh.2, ?_, by simp⟩
        exact (Option.some_inj.mp h).symm
      · simp only [InvaderGrid.checkBulletCollisionList, if_neg hh] at h ⊢
        rw [Bool.and_eq_true] at hh
        obtain ⟨l1, e0, l2, hes, hl1, ha, hc, he', h2⟩ := ih e' h
        refine ⟨e :: l1, e0, l2, by rw [hes, List.cons_append], ?_, ha, hc, he', ?_⟩
        · intro x hx
          rcases List.mem_cons.mp hx with rfl | hx
          · exact fun hcx => hh ⟨hcx.1, hcx.2⟩
          · exact hl1 x hx
        · show e :: (InvaderGrid.checkBulletCollisionList b es).2 = e :: l1 ++ e0.destroy :: l2
          rw [h2, List.cons_append]

/-- C4: `checkBulletCollision` scans enemies in original order, skips dead
entries, kills and returns the first living overlapping enemy (the returned
entry was alive, every earlier entry missed), returns null when nothing
overlaps leaving the grid unchanged; in the per-projectile session
resolution, a swarm hit removes the projectile and adds exactly 10 without
testing the bonus craft, while only a projectile that missed the swarm is
tested against an active craft — that hit removes it, deactivates the craft,
and adds exactly 100. -/
theorem C4_bullet_resolution (g : InvaderGrid) (b : Bullet) (u : UFO) (ou : Option UFO)
    (sc : Int) (hu : u.isActive = true) :
    SCORE_PER_ENEMY = 10 ∧ UFO_SCORE = 100 ∧
    ((g.checkBulletCollision b).1 = none ↔
      ∀ e ∈ g.enemies, ¬(e.isAlive = true ∧ checkCollision b.getRect e.getRect = true)) ∧
    ((g.checkBulletCollision b).1 = none → (g.checkBulletCollision b).2 = g) ∧
    (∀ e', (g.checkBulletCollision b).1 = some e' →
      ∃ l1 e0 l2, g.enemies = l1 ++ e0 :: l2 ∧
        (∀ x ∈ l1, ¬(x.isAlive = true ∧ checkCollision b.getRect x.getRect = true)) ∧
        e0.isAlive = true ∧ checkCollision b.getRect e0.getRect = true ∧
        e' = e0.destroy ∧
        (g.checkBulletCollision b).2.enemies = l1 ++ e0.destroy :: l2) ∧
    (∀ e', (g.checkBulletCollision b).1 = some e' →
      Session.resolveOnePlayerBullet b g ou sc =
        (false, (g.checkBulletCollision b).2, ou, sc + SCORE_PER_ENEMY)) ∧
    ((g.checkBulletCollision b).1 = none →
      checkCollision b.getRect u.getRect = true →
      Session.resolveOnePlayerBullet b g (some u) sc =
        (false, g, some u.destroy, sc + UFO_SCORE) ∧ u.destroy.isActive = false) ∧
    ((g.checkBulletCollision b).1 = none →
      checkCollision b.getRect u.getRect = false →
      Session.resolveOnePlayerBullet b g (some u) sc = (true, g, some u, sc)) := by
  have hfst : (g.checkBulletCollision b).1 = (InvaderGrid.checkBulletCollisionList b g.enemies).1 := rfl
  have hsnd : (g.checkBulletCollision b).2.enemies = (InvaderGrid.checkBulletCollisionList b g.enemies).2 := rfl
  have hgeq : (g.checkBulletCollision b).1 = none → (g.checkBulletCollision b).2 = g := by
    intro h
    show ({ g with enemies := (InvaderGrid.checkBulletCollisionList b g.enemies).2 } : InvaderGrid) = g
    rw [InvaderGrid.checkBulletCollisionList_none_eq b g.enemies (hfst ▸ h)]
  refine ⟨rfl, rfl, ?_, hgeq, ?_, ?_, ?_, ?_⟩
  · rw [hfst]
    exact InvaderGrid.checkBulletCollisionList_none_iff b g.enemies
  · intro e' h
    obtain ⟨l1, e0, l2, hes, hl1, ha, hc, he', h2⟩ :=
      InvaderGrid.checkBulletCollisionList_some b g.enemies e' (hfst ▸ h)
    exact ⟨l1, e0, l2, hes, hl1, ha, hc, he', by rw [hsnd, h2]⟩
  · intro e' h
    simp [Session.resolveOnePlayerBullet, h]
  · intro hn hcu
    have hg := hgeq hn
    constructor
    · simp [Session.resolveOnePlayerBullet, hn, hu, hcu, hg]
    · rfl
  · intro hn hcu
    have hg := hgeq hn
    simp [Session.resolveOnePlayerBullet, hn, hu, hcu, hg]

/-- C4 witness for `C4_bullet_resolution` at concrete inputs: a projectile
overlapping the single test enemy is resolved as a swarm hit worth 10,
without touching the bonus craft slot. -/
theorem C4_bullet_resolution_witness :
    Session.resolveOnePlayerBullet hitEnemyBullet testGrid none 0 =
      (false, (testGrid.checkBulletCollision hitEnemyBullet).2, none, 0 + SCORE_PER_ENEMY) := by
  have hsome : (testGrid.checkBulletCollision hitEnemyBullet).1 = some testEnemy.destroy := by
    have hcc : checkCollision hitEnemyBullet.getRect testEnemy.getRect = true := by
      norm_num [hitEnemyBullet, testEnemy, Bullet.getRect, Enemy.getRect, checkCollision,
        ENEMY_WIDTH, ENEMY_HEIGHT, ENEMY_START_Y, BULLET_WIDTH, BULLET_HEIGHT, BULLET_SPEED]
    show (InvaderGrid.checkBulletCollisionList hitEnemyBullet [testEnemy]).1
        = some testEnemy.destroy
    simp [InvaderGrid.checkBulletCollisionList, hcc]
    rfl
  exact (C4_bullet_resolution testGrid hitEnemyBullet testUfo none 0 rfl).2.2.2.2.2.1
    testEnemy.destroy hsome

/-- The enemy-bullet loop hits iff some enemy bullet overlaps the player;
on a hit `player.hit()` runs exactly once, otherwise the player is
untouched. -/
theorem Session.resolveEnemyBullets_spec (bs : List Bullet) (p : Player) :
    ((Session.resolveEnemyBullets bs p).2.2 = true ↔
      ∃ b ∈ bs, checkCollision b.getRect p.getRect = true) ∧
    ((Session.resolveEnemyBullets bs p).2.2 = true →
      (Session.resolveEnemyBullets bs p).2.1 = p.hit) ∧
    ((Session.resolveEnemyBullets bs p).2.2 = false →
      (Session.resolveEnemyBullets bs p).2.1 = p) := by
  induction bs with
  | nil => simp [Session.resolveEnemyBullets]
  | cons b rest ih =>
      obtain ⟨ih1, ih2, ih3⟩ := ih
      by_cases hr : (Session.resolveEnemyBullets rest p).2.2 = true
      · have hres : Session.resolveEnemyBullets (b :: rest) p =
            (b :: (Session.resolveEnemyBullets rest p).1,
             (Session.resolveEnemyBullets rest p).2.1, true) := by
          simp only [Session.resolveEnemyBullets]
          rw [if_pos hr]
        rw [hres]
        refine ⟨?_, fun _ => ih2 hr, fun h => absurd h (by simp)⟩
        simp only [List.mem_cons, true_iff]
        obtain ⟨b0, hb0, hc0⟩ := ih1.mp hr
        exact ⟨b0, Or.inr hb0, hc0⟩
      · have hrf : (Session.resolveEnemyBullets rest p).2.2 = false :=
          Bool.eq_false_iff.mpr hr
        by_cases hc : checkCollision b.getRect p.getRect = true
        · have hres : Session.resolveEnemyBullets (b :: rest) p =
              ((Session.resolveEnemyBullets rest p).1, p.hit, true) := by
            simp only [Session.resolveEnemyBullets]
            rw [if_neg hr, if_pos hc]
          rw [hres]
          exact ⟨by simp [hc], fun _ => rfl, fun h => absurd h (by simp)⟩
        · have hres : Session.resolveEnemyBullets (b :: rest) p =
              (b :: (Session.resolveEnemyBullets rest p).1, p, false) := by
            simp only [Session.resolveEnemyBullets]
            rw [if_neg hr, if_neg hc]
          rw [hres]
          refine ⟨?_, fun h => absurd h (by simp), fun _ => rfl⟩
          simp only [Bool.false_eq_true, List.mem_cons, false_iff]
          rintro ⟨b0, hb0 | hb0, hc0⟩
          · exact hc (hb0 ▸ hc0)
          · exact hr (ih1.mpr ⟨b0, hb0, hc0⟩)

/-- C5 counterexample: in the claim's own scenario (Playing phase, exactly
one life, an enemy projectile overlapping the player), the hit DOES enter the
respawn sub-state — `checkCollisions` sets the respawn flag — refuting
"the respawn sub-state is never entered". -/
theorem C5_counterexample :
    hitSession.player.lives = 1 ∧
    checkCollision hitBullet.getRect hitSession.player.getRect = true ∧
    (hitSession.checkCollisions 0).isPlayerRespawning = true := by
  have hover : checkCollision hitBullet.getRect hitSession.player.getRect = true := by
    norm_num [hitBullet, hitSession, Player.init, Player.getRect, Bullet.getRect,
      checkCollision, CANVAS_WIDTH, CANVAS_HEIGHT, PLAYER_WIDTH, PLAYER_HEIGHT,
      BULLET_SPEED, BULLET_WIDTH, BULLET_HEIGHT]
  refine ⟨rfl, hover, ?_⟩
  have h1 : (Session.resolveEnemyBullets hitSession.enemyBullets hitSession.player).2.2
      = true :=
    (Session.resolveEnemyBullets_spec hitSession.enemyBullets hitSession.player).1.mpr
      ⟨hitBullet, by simp [hitSession], hover⟩
  have h0 : hitSession.isPlayerRespawning = false := rfl
  simp only [Session.checkCollisions, h0, Bool.false_eq_true, if_false]
  simp [h1, Session.startPlayerRespawn]

/-- C5 amended: with exactly one life and an overlapping enemy projectile,
the hit zeroes the lives and sets the respawn flag (the respawn sub-state IS
entered), and the session phase becomes GameOver at the next end-condition
check — so the pending respawn never completes while the phase is
GameOver. -/
theorem C5_fatal_hit (s : Session) (now : ℚ)
    (hphase : s.gameState = .playing)
    (hlives : s.player.lives = 1)
    (hresp : s.isPlayerRespawning = false)
    (hhit : ∃ b ∈ s.enemyBullets, checkCollision b.getRect s.player.getRect = true) :
    (s.checkCollisions now).player.lives = 0 ∧
    (s.checkCollisions now).isPlayerRespawning = true ∧
    (((s.checkCollisions now).checkInvaderPlayerCollision).checkGameEndConditions).gameState
      = .gameOver := by
  obtain ⟨hiff, hhitp, -⟩ := Session.resolveEnemyBullets_spec s.enemyBullets s.player
  have he : (Session.resolveEnemyBullets s.enemyBullets s.player).2.2 = true := hiff.mpr hhit
  have hp : (Session.resolveEnemyBullets s.enemyBullets s.player).2.1 = s.player.hit :=
    hhitp he
  have hkey : (s.checkCollisions now).player = s.player.hit ∧
      (s.checkCollisions now).isPlayerRespawning = true := by
    simp only [Session.checkCollisions, hresp, Bool.false_eq_true, if_false]
    simp [he, hp, Session.startPlayerRespawn]
  have hl0 : (s.checkCollisions now).player.lives = 0 := by
    rw [hkey.1]
    simp [Player.hit, hlives]
  refine ⟨hl0, hkey.2, ?_⟩
  have h2 : (s.checkCollisions now).checkInvaderPlayerCollision = s.checkCollisions now := by
    simp [Session.checkInvaderPlayerCollision, hkey.2]
  rw [h2]
  have hle : (s.checkCollisions now).player.lives ≤ 0 := by rw [hl0]
  simp [Session.checkGameEndConditions, hle, Session.gameOverTransition]

/-- C5 witness for `C5_fatal_hit` at concrete inputs. -/
theorem C5_fatal_hit_witness :
    (hitSession.checkCollisions 0).player.lives = 0 ∧
    (((hitSession.checkCollisions 0).checkInvaderPlayerCollision).checkGameEndConditions).gameState
      = .gameOver := by
  have hover : checkCollision hitBullet.getRect hitSession.player.getRect = true := by
    norm_num [hitBullet, hitSession, Player.init, Player.getRect, Bullet.getRect,
      checkCollision, CANVAS_WIDTH, CANVAS_HEIGHT, PLAYER_WIDTH, PLAYER_HEIGHT,
      BULLET_SPEED, BULLET_WIDTH, BULLET_HEIGHT]
  have h := C5_fatal_hit hitSession 0 rfl rfl rfl ⟨hitBullet, by simp [hitSession], hover⟩
  exact ⟨h.1, h.2.2⟩

/-- C10 counterexample: with zero lives and a fully dead formation, the
end-condition check transitions to GameOver and does NOT advance the wave,
so "wave-advance occurs iff the living-enemy count is 0" fails. -/
theorem C10_counterexample :
    deadSession.invaderGrid.getAliveCount = 0 ∧
    deadSession.checkGameEndConditions.wave = deadSession.wave ∧
    deadSession.checkGameEndConditions.gameState = .gameOver := by
  refine ⟨rfl, ?_, ?_⟩ <;>
    simp [deadSession, Session.checkGameEndConditions, Session.gameOverTransition]

/-- C10 amended: the wave-advance transition occurs iff the swarm has zero
living enemies AND the player still has lives (a zero-life state takes the
GameOver branch instead); on advance it increments the wave counter, resets
the swarm (direction +1, timers 0, previous stage 1, canonical formation),
clears both projectile collections, and leaves player, lives, score
untouched. -/
theorem C10_wave_advance (s : Session) :
    (s.checkGameEndConditions.wave = s.wave + 1 ↔
      0 < s.player.lives ∧ s.invaderGrid.getAliveCount = 0) ∧
    (0 < s.player.lives → s.invaderGrid.getAliveCount = 0 →
      s.checkGameEndConditions = { s with
        wave := s.wave + 1,
        invaderGrid := s.invaderGrid.reset,
        playerBullets := [],
        enemyBullets := [] } ∧
      s.invaderGrid.reset.moveDirection = 1 ∧
      s.invaderGrid.reset.lastMoveTime = 0 ∧
      s.invaderGrid.reset.lastShootTime = 0 ∧
      s.invaderGrid.reset.previousSpeedStage = 1 ∧
      s.invaderGrid.reset.enemies = InvaderGrid.createEnemies s.invaderGrid.baseY ∧
      s.checkGameEndConditions.player = s.player ∧
      s.checkGameEndConditions.score = s.score) := by
  by_cases hl : s.player.lives ≤ 0
  · have hng : s.checkGameEndConditions = s.gameOverTransition := by
      simp [Session.checkGameEndConditions, hl]
    refine ⟨?_, fun hpos _ => absurd hl (not_le.mpr hpos)⟩
    rw [hng]
    constructor
    · intro hw
      exact absurd hw (by simp [Session.gameOverTransition])
    · rintro ⟨hpos, -⟩
      exact absurd hl (not_le.mpr hpos)
  · by_cases ha : s.invaderGrid.getAliveCount = 0
    · have hng : s.checkGameEndConditions = s.nextWave := by
        simp [Session.checkGameEndConditions, hl, ha]
      refine ⟨?_, fun _ _ => ⟨?_, rfl, rfl, rfl, rfl, rfl, ?_, ?_⟩⟩
      · rw [hng]
        simp [Session.nextWave, lt_of_not_le hl, ha]
      · rw [hng]
        rfl
      · rw [hng]
        rfl
      · rw [hng]
        rfl
    · have hng : s.checkGameEndConditions = s := by
        simp [Session.checkGameEndConditions, hl, ha]
      rw [hng]
      refine ⟨?_, fun _ h0 => absurd h0 ha⟩
      constructor
      · intro hw
        omega
      · rintro ⟨-, h0⟩
        exact absurd h0 ha

/-- C10 witness for `C10_wave_advance` at concrete inputs. -/
theorem C10_wave_advance_witness :
    0 < clearedSession.player.lives ∧
    clearedSession.checkGameEndConditions.wave = clearedSession.wave + 1 := by
  have hl : 0 < clearedSession.player.lives := by
    norm_num [clearedSession, Player.init, PLAYER_LIVES]
  exact ⟨hl, (C10_wave_advance clearedSession).1.mpr ⟨hl, rfl⟩⟩

end InvaderGame
